import Mathlib

/-!
Verification of the access-scoping, audit/notification and password-reset
core of the Praias Fluviais Penacova incident-tracking application.

The definitions below are a shallow embedding of the Python source:
`models.py` (data model) and `app.py` (routes and helpers).  Datetimes are
modelled as integers (comparison is all the code uses), the SQLAlchemy
session/tables as explicit lists carried in a `DB` record, and fallible
storage writes as an explicit `write_fails` flag threaded into the
functions whose source wraps the write in `try/except`.
-/

namespace Praias

/-- Role constants from `models.py`. -/
def ROLE_NADADOR : String := "nadador"

/-- Role constants from `models.py`. -/
def ROLE_SUPERVISOR : String := "supervisor"

/-- Role constants from `models.py`. -/
def ROLE_PRESIDENTE : String := "presidente"

/-- `app.py` line 13: user id kept hidden from listings (visible only to itself). -/
def HIDDEN_USER_ID : Int := 12

/-- `models.py` `User`: the fields the core logic reads. -/
structure User where
  id : Int
  name : String
  email : String
  role : String
  is_active : Bool
deriving Repr, DecidableEq

/-- `models.py` `Occurrence`: the audited record resource. -/
structure Occurrence where
  id : Int
  date : Int
  zone : String
  type : String
  description : String
  user_id : Int
deriving Repr, DecidableEq

/-- The links `log_activity` can attach to a notification (`url_for` targets). -/
inductive Link where
  | activities
  | view_occurrence (id : Int)
  | ocorrencias
  | view_user (id : Int)
deriving Repr, DecidableEq

/-- `models.py` `Notification`. -/
structure Notification where
  id : Int
  user_id : Int
  title : String
  message : String
  type : String
  read : Bool
  link : Link
deriving Repr, DecidableEq

/-- The `details` dict passed to `log_activity`: the keys the core reads. -/
structure Details where
  occurrence_id : Option Int := none
  user_id : Option Int := none
  is_active : Option Bool := none
  suspension_reason : String := ""
  notification_id : Option Int := none
  user_agent : String := ""
deriving Repr, DecidableEq

/-- `models.py` `ActivityLog`. -/
structure ActivityLog where
  user_id : Int
  action : String
  description : String
  details : Option Details
deriving Repr, DecidableEq

/-- `models.py` `PasswordResetToken`. -/
structure PasswordResetToken where
  user_id : Int
  token : String
  expires_at : Int
  used : Bool
  used_at : Option Int
deriving Repr, DecidableEq

/-- The relational store: one list per table. -/
structure DB where
  users : List User
  occurrences : List Occurrence
  notifications : List Notification
  activity_logs : List ActivityLog
  reset_tokens : List PasswordResetToken
deriving Repr, DecidableEq

/-- `models.py` line 135-137: `is_valid` — `not self.used and utcnow() < self.expires_at`. -/
def PasswordResetToken.is_valid (rt : PasswordResetToken) (now : Int) : Bool :=
  !rt.used && decide (now < rt.expires_at)

/-- `app.py` lines 124-134 `verify_reset_token`: look the token up by secret,
    return its owner if `is_valid`, else `None`. -/
def verify_reset_token (db : DB) (now : Int) (tok : String) : Option User :=
  match db.reset_tokens.find? (fun rt => rt.token == tok) with
  | none => none
  | some rt =>
      if rt.is_valid now then db.users.find? (fun u => u.id == rt.user_id) else none

/-- Update the first token row matching the secret: `used := True`, `used_at := now`
    (the `token` column is unique, so `filter_by(...).first()` touches that row). -/
def mark_first : List PasswordResetToken → String → Int → List PasswordResetToken
  | [], _, _ => []
  | rt :: rest, tok, now =>
      if rt.token == tok then { rt with used := true, used_at := some now } :: rest
      else rt :: mark_first rest tok now

/-- `app.py` lines 136-142 `mark_token_used`. -/
def mark_token_used (db : DB) (now : Int) (tok : String) : DB :=
  { db with reset_tokens := mark_first db.reset_tokens tok now }

/-- Python truthiness of an optional int (`if user_id:` — `None` and `0` are falsy). -/
def truthy_int : Option Int → Bool
  | none => false
  | some n => n != 0

/-- `app.py` line 190: the actions that create notifications inside `log_activity`. -/
def audit_actions : List String :=
  ["login", "create_occurrence", "edit_occurrence", "delete_occurrence", "toggle_user_status"]

/-- `app.py` lines 195-218: the notification title and message per action kind. -/
def notification_title_message (action : String) (user : User) (details : Option Details) :
    String × String :=
  if action == "login" then
    ("Novo Login Detectado", user.name ++ " acabou de entrar no sistema.")
  else if action == "create_occurrence" then
    ("Nova Ocorrência Registada", user.name ++ " registou uma nova ocorrência.")
  else if action == "edit_occurrence" then
    ("Ocorrência Editada", user.name ++ " editou uma ocorrência.")
  else if action == "delete_occurrence" then
    ("Ocorrência Removida", user.name ++ " removeu uma ocorrência.")
  else
    let is_active := match details with
      | some d => d.is_active.getD true
      | none => true
    if is_active then
      ("Utilizador Reativado", "Utilizador foi reativado por " ++ user.name ++ ".")
    else
      let reason := match details with
        | some d => d.suspension_reason
        | none => ""
      if reason != "" then
        ("Utilizador Suspenso",
          "Utilizador suspenso por " ++ user.name ++ ". Razão: " ++ reason)
      else
        ("Utilizador Suspenso", "Utilizador foi suspenso por " ++ user.name ++ ".")

/-- `app.py` lines 224-249: link derivation for the notification, by action kind
    and the `occurrence_id` / `user_id` keys of `details` (Python truthiness). -/
def notification_link (action : String) (details : Option Details) : Link :=
  let occurrence_id := match details with
    | some d => d.occurrence_id
    | none => none
  let target_user_id := match details with
    | some d => d.user_id
    | none => none
  let default_link := Link.activities
  let notif_link :=
    if (action == "create_occurrence" || action == "edit_occurrence")
        && truthy_int occurrence_id then
      Link.view_occurrence (occurrence_id.getD 0)
    else if action == "delete_occurrence" then
      Link.ocorrencias
    else
      default_link
  if (action == "create_user" || action == "edit_user" || action == "toggle_user_status")
      && truthy_int target_user_id then
    Link.view_user (target_user_id.getD 0)
  else
    notif_link

/-- `app.py` lines 251-261: when `notify_supervisors` is set, one notification per
    user with role supervisor/presidente, excluding `HIDDEN_USER_ID`.  The primary
    key of the created rows is assigned by the storage engine (out of scope). -/
def fan_out_notifications (db : DB) (title message : String) (link : Link) :
    List Notification :=
  let supervisors := db.users.filter
    (fun u => (u.role == "supervisor" || u.role == "presidente") && u.id != HIDDEN_USER_ID)
  supervisors.map (fun s =>
    { id := 0, user_id := s.id, title := title, message := message,
      type := "info", read := false, link := link })

/-- The body of `log_activity` (`app.py` lines 177-263) up to the final commit:
    append the activity row and, for audit-worthy actions by an existing user
    with `notify_supervisors`, the fan-out notifications. -/
def log_activity_body (db : DB) (user_id : Int) (action description : String)
    (details : Option Details) (notify_supervisors : Bool) : DB :=
  let activity : ActivityLog :=
    { user_id := user_id, action := action, description := description, details := details }
  let pending_notifs :=
    if audit_actions.contains action then
      match db.users.find? (fun u => u.id == user_id) with
      | some user =>
          if notify_supervisors then
            let (title, message) := notification_title_message action user details
            let notif_link := notification_link action details
            fan_out_notifications db title message notif_link
          else []
      | none => []
    else []
  { db with
      activity_logs := db.activity_logs ++ [activity],
      notifications := db.notifications ++ pending_notifs }

/-- `app.py` lines 168-266 `log_activity`: the whole body runs in a `try`; on a
    storage failure the session is rolled back, the error is printed and
    swallowed, so the caller always gets a normal return (`Except.ok`). -/
def log_activity (db : DB) (user_id : Int) (action description : String)
    (details : Option Details) (notify_supervisors : Bool) (write_fails : Bool) :
    Except String DB :=
  let attempt : Except String DB :=
    if write_fails then Except.error "commit failed"
    else Except.ok (log_activity_body db user_id action description details notify_supervisors)
  match attempt with
  | Except.ok db2 => Except.ok db2
  | Except.error _ => Except.ok db

/-- The caller pattern `try: log_activity(...) except: print(...)` — keep the
    already-committed state if the audit call itself surfaced an error. -/
def except_db (r : Except String DB) (fallback : DB) : DB :=
  match r with
  | Except.ok d => d
  | Except.error _ => fallback

/-- `app.py` line 283: the login route records the activity without passing
    `notify_supervisors` (it defaults to `False`). -/
def login_log_activity (db : DB) (user : User) (ua : String) : Except String DB :=
  log_activity db user.id "login" "Iniciou sessão" (some { user_agent := ua }) false false

/-- `app.py` lines 527-549 `nova_ocorrencia` (success path): commit the new
    occurrence, then record the audit entry with `notify_supervisors=True`;
    a failure of the audit write is caught and only printed. -/
def nova_ocorrencia_commit (db : DB) (cu : User) (occ_date : Int)
    (zone ty desc : String) (audit_write_fails : Bool) : DB :=
  let occ : Occurrence :=
    { id := Int.ofNat db.occurrences.length + 1, date := occ_date, zone := zone,
      type := ty, description := desc, user_id := cu.id }
  let db1 := { db with occurrences := db.occurrences ++ [occ] }
  except_db
    (log_activity db1 cu.id "create_occurrence" ("Criou ocorrência #" ++ toString occ.id)
      (some { occurrence_id := some occ.id }) true audit_write_fails)
    db1

/-- The occurrence row committed by `nova_ocorrencia_commit` before the audit call. -/
def nova_ocorrencia_occ (db : DB) (cu : User) (occ_date : Int) (zone ty desc : String) :
    Occurrence :=
  { id := Int.ofNat db.occurrences.length + 1, date := occ_date, zone := zone,
    type := ty, description := desc, user_id := cu.id }

/-- Result of the `/ocorrencias` listing (`app.py` lines 396-482): access denied
    (flash + redirect), or the permission-scoped occurrence list together with
    the `all_users` dropdown. -/
inductive OcorrenciasResult where
  | denied
  | ok (occs : List Occurrence) (all_users : Option (List User))
deriving Repr, DecidableEq

/-- `app.py` line 428: ids of nadadores excluding the hidden user. -/
def nadador_ids (db : DB) : List Int :=
  (db.users.filter (fun u => u.role == ROLE_NADADOR && u.id != HIDDEN_USER_ID)).map User.id

/-- `app.py` lines 413-444: the permission/scoping part of the `/ocorrencias`
    listing (the later date/zone/type/search narrowing is outside the claims). -/
def ocorrencias_route (db : DB) (cu : User) (req_user_id : Option Int) : OcorrenciasResult :=
  if cu.role == ROLE_NADADOR then
    OcorrenciasResult.ok (db.occurrences.filter (fun o => o.user_id == cu.id)) none
  else if cu.role == ROLE_SUPERVISOR then
    let all_users := db.users.filter
      (fun u => u.role == ROLE_NADADOR && u.id != HIDDEN_USER_ID)
    if truthy_int req_user_id then
      let uid := req_user_id.getD 0
      match db.users.find? (fun u => u.id == uid) with
      | none => OcorrenciasResult.denied
      | some target =>
          if target.role != ROLE_NADADOR then OcorrenciasResult.denied
          else
            OcorrenciasResult.ok (db.occurrences.filter (fun o => o.user_id == uid))
              (some all_users)
    else
      let ids := nadador_ids db ++ [cu.id]
      OcorrenciasResult.ok (db.occurrences.filter (fun o => ids.contains o.user_id))
        (some all_users)
  else
    let occs :=
      if truthy_int req_user_id then
        db.occurrences.filter (fun o => o.user_id == req_user_id.getD 0)
      else db.occurrences
    let all_users :=
      if cu.id == HIDDEN_USER_ID then
        (if cu.id == HIDDEN_USER_ID then
          db.users.filter (fun u => u.id != cu.id)
        else
          db.users.filter (fun u => u.id != cu.id && u.id != HIDDEN_USER_ID))
      else
        db.users.filter (fun u => u.id != cu.id && u.id != HIDDEN_USER_ID)
    OcorrenciasResult.ok occs (some all_users)

/-- Result of the `/users` listing. -/
inductive UsersResult where
  | denied
  | ok (users : List User)
deriving Repr, DecidableEq

/-- `app.py` lines 804-829 `/users`: nadador denied; supervisor sees nadadores
    minus the hidden user; presidente sees everyone but itself, minus the hidden
    user unless the presidente is the hidden user. -/
def users_route (db : DB) (cu : User) : UsersResult :=
  if cu.role == ROLE_NADADOR then UsersResult.denied
  else if cu.role == ROLE_SUPERVISOR then
    UsersResult.ok (db.users.filter
      (fun u => u.role == ROLE_NADADOR && u.id != HIDDEN_USER_ID))
  else
    if cu.id == HIDDEN_USER_ID then
      UsersResult.ok (db.users.filter (fun u => u.id != cu.id))
    else
      UsersResult.ok (db.users.filter
        (fun u => u.id != cu.id && u.id != HIDDEN_USER_ID))

/-- `app.py` lines 1077-1099: the permission/scoping part of `/export/csv`
    (`none` models the access-denied redirect). -/
def export_csv_query (db : DB) (cu : User) (req_user_id : Option Int) :
    Option (List Occurrence) :=
  if cu.role == ROLE_NADADOR then
    some (db.occurrences.filter (fun o => o.user_id == cu.id))
  else if cu.role == ROLE_SUPERVISOR then
    if truthy_int req_user_id then
      let uid := req_user_id.getD 0
      match db.users.find? (fun u => u.id == uid) with
      | none => none
      | some target =>
          if target.role != ROLE_NADADOR then none
          else some (db.occurrences.filter (fun o => o.user_id == uid))
    else
      let ids := nadador_ids db ++ [cu.id]
      some (db.occurrences.filter (fun o => ids.contains o.user_id))
  else
    if truthy_int req_user_id then
      some (db.occurrences.filter (fun o => o.user_id == req_user_id.getD 0))
    else some db.occurrences

/-- Result of `POST /notifications/<id>/mark-as-read`. -/
inductive MarkReadResult where
  | success
  | not_found
  | denied
deriving Repr, DecidableEq

/-- Set `read := true` on the first notification row with the given primary key. -/
def set_notification_read : List Notification → Int → List Notification
  | [], _ => []
  | n :: rest, nid =>
      if n.id == nid then { n with read := true } :: rest
      else n :: set_notification_read rest nid

/-- `app.py` lines 1535-1556 `mark_notification_read`: 404 when the notification
    does not exist, 403 when the requester is not the recipient, otherwise set
    `read = True`, commit, and record the (non-notifying) audit entry. -/
def mark_notification_read (db : DB) (cu : User) (nid : Int) : MarkReadResult × DB :=
  match db.notifications.find? (fun n => n.id == nid) with
  | none => (MarkReadResult.not_found, db)
  | some n =>
      if n.user_id != cu.id then (MarkReadResult.denied, db)
      else
        let db1 := { db with notifications := set_notification_read db.notifications nid }
        let db2 := except_db
          (log_activity db1 cu.id "mark_notification_read"
            ("Marcou notificação #" ++ toString nid ++ " como lida")
            (some { notification_id := some nid }) false false)
          db1
        (MarkReadResult.success, db2)

/-- Decimal digit run to a number (`none` when empty or a non-digit appears). -/
def parse_digits (cs : List Char) : Option Nat :=
  if cs.isEmpty then none
  else if cs.all Char.isDigit then
    some (cs.foldl (fun acc c => acc * 10 + (c.toNat - 48)) 0)
  else none

/-- Python `int(user_id)` (`app.py` line 93) on the decimal strings a session id
    can hold: optional minus sign then digits, `none` when parsing fails. -/
def parse_int (s : String) : Option Int :=
  match s.toList with
  | '-' :: rest => (parse_digits rest).map (fun n => -(n : Int))
  | l => (parse_digits l).map (fun n => (n : Int))

/-- `app.py` lines 84-100 `load_user`: parse the session id, look the user up,
    return it only when `is_active`. -/
def load_user (db : DB) (user_id : String) : Option User :=
  match parse_int user_id with
  | none => none
  | some uid =>
      match db.users.find? (fun u => u.id == uid) with
      | some user => if user.is_active then some user else none
      | none => none

/-- Phase of one redemption attempt of the `/reset-password/<token>` flow
    (`app.py` lines 1506-1533): it first runs `verify_reset_token`, and only in
    a later step (after the form round-trip) runs `mark_token_used`. -/
inductive RedeemPhase where
  | start
  | verified
  | redeemed (success : Bool)
deriving Repr, DecidableEq

/-- N in-flight redemption attempts over the shared store. -/
structure RedeemSystem where
  db : DB
  attempts : List RedeemPhase
deriving Repr, DecidableEq

/-- One scheduler step: attempt `i` executes its next statement.  The verify
    step and the mark step are separate, exactly as in the source, and
    `mark_token_used` writes `used := True` unconditionally (no
    update-where-unused, no affected-row check). -/
def redeem_step (now : Int) (tok : String) (s : RedeemSystem) (i : Nat) : RedeemSystem :=
  match s.attempts.get? i with
  | none => s
  | some RedeemPhase.start =>
      match verify_reset_token s.db now tok with
      | some _ => { s with attempts := s.attempts.set i RedeemPhase.verified }
      | none => { s with attempts := s.attempts.set i (RedeemPhase.redeemed false) }
  | some RedeemPhase.verified =>
      { db := mark_token_used s.db now tok,
        attempts := s.attempts.set i (RedeemPhase.redeemed true) }
  | some (RedeemPhase.redeemed _) => s

/-- Run a whole interleaving schedule. -/
def run_schedule (now : Int) (tok : String) : RedeemSystem → List Nat → RedeemSystem
  | s, [] => s
  | s, i :: rest => run_schedule now tok (redeem_step now tok s i) rest

/-- Number of attempts that ended with a successful redemption. -/
def redeem_successes (s : RedeemSystem) : Nat :=
  (s.attempts.filter (fun ph => ph == RedeemPhase.redeemed true)).length

/-! ### Lemmas about the reset-token table -/

theorem find?_mark_first (l : List PasswordResetToken) (tok : String) (now : Int) :
    (mark_first l tok now).find? (fun rt => rt.token == tok) =
      (l.find? (fun rt => rt.token == tok)).map
        (fun rt => { rt with used := true, used_at := some now }) := by
  induction l with
  | nil => rfl
  | cons a rest ih =>
      cases h : (a.token == tok)
      · simp [mark_first, h, List.find?_cons, ih]
      · simp [mark_first, h, List.find?_cons]

theorem find_unique_mem {l : List PasswordResetToken} {tok : String}
    (h1 : (l.filter (fun rt => rt.token == tok)).length ≤ 1)
    {rt : PasswordResetToken} (hmem : rt ∈ l) (ht : rt.token = tok) :
    l.find? (fun x => x.token == tok) = some rt := by
  induction l with
  | nil => cases hmem
  | cons a rest ih =>
      rcases List.mem_cons.mp hmem with heq | hmem'
      · subst heq
        simp [List.find?_cons, ht]
      · cases h : (a.token == tok)
        · have h1' : (rest.filter (fun rt => rt.token == tok)).length ≤ 1 := by
            simpa [List.filter_cons, h] using h1
          simp [List.find?_cons, h, ih h1' hmem']
        · exfalso
          have hnone : ∀ x ∈ rest, ¬x.token = tok := by
            simpa [List.filter_cons, h] using h1
          exact hnone rt hmem' ht

theorem mark_first_all_used {l : List PasswordResetToken} {tok : String} (now : Int)
    (h1 : (l.filter (fun rt => rt.token == tok)).length ≤ 1) :
    ∀ rt ∈ mark_first l tok now, rt.token = tok → rt.used = true := by
  induction l with
  | nil => intro rt h; cases h
  | cons a rest ih =>
      cases h : (a.token == tok)
      · intro rt hmem htok
        simp only [mark_first, h, Bool.false_eq_true, if_false] at hmem
        rcases List.mem_cons.mp hmem with heq | hmem'
        · subst heq
          exact absurd (by simp [htok] : (rt.token == tok) = true) (by simp [h])
        · have h1' : (rest.filter (fun rt => rt.token == tok)).length ≤ 1 := by
            simpa [List.filter_cons, h] using h1
          exact ih h1' rt hmem' htok
      · intro rt hmem htok
        simp only [mark_first, h, if_true] at hmem
        rcases List.mem_cons.mp hmem with heq | hmem'
        · subst heq
          rfl
        · exfalso
          have hnone : ∀ x ∈ rest, ¬x.token = tok := by
            simpa [List.filter_cons, h] using h1
          exact hnone rt hmem' htok

/-! ### C1 — reset-token verify/redeem lifecycle -/

/-- C1: for every stored ResetToken, `verify_reset_token(secret)` returns the
owning user exactly when a token row with that secret exists, its `used` flag is
false, and the current time is strictly before `expires_at`; after
`mark_token_used` is run on that secret (as `reset_password` does on a successful
redemption), `used` is permanently true and any further verify or redemption
attempt with the same secret returns `None`. -/
theorem C1_reset_token_lifecycle (db : DB) (now now2 : Int) (tok : String)
    (huniq : (db.reset_tokens.filter (fun rt => rt.token == tok)).length ≤ 1) :
    (∀ u, verify_reset_token db now tok = some u ↔
      ∃ rt ∈ db.reset_tokens, rt.token = tok ∧ rt.used = false ∧ now < rt.expires_at ∧
        db.users.find? (fun v => v.id == rt.user_id) = some u) ∧
    verify_reset_token (mark_token_used db now tok) now2 tok = none ∧
    (∀ rt ∈ (mark_token_used db now tok).reset_tokens, rt.token = tok → rt.used = true) := by
  refine ⟨fun u => ⟨fun h => ?_, fun h => ?_⟩, ?_, ?_⟩
  · unfold verify_reset_token at h
    cases hf : db.reset_tokens.find? (fun rt => rt.token == tok) with
    | none => rw [hf] at h; cases h
    | some rt =>
        rw [hf] at h
        dsimp only at h
        by_cases hv : rt.is_valid now = true
        · rw [if_pos hv] at h
          simp only [PasswordResetToken.is_valid, Bool.and_eq_true, Bool.not_eq_true',
            decide_eq_true_eq] at hv
          exact ⟨rt, List.mem_of_find?_eq_some hf,
            by simpa using List.find?_some hf, hv.1, hv.2, h⟩
        · rw [if_neg hv] at h
          cases h
  · rcases h with ⟨rt, hmem, ht, hused, hexp, hu⟩
    have hf := find_unique_mem huniq hmem ht
    have hv : rt.is_valid now = true := by
      simp [PasswordResetToken.is_valid, hused, hexp]
    simp only [verify_reset_token, hf, hv, if_true]
    exact hu
  · cases hf : db.reset_tokens.find? (fun rt => rt.token == tok) with
    | none =>
        have hm : (mark_first db.reset_tokens tok now).find?
            (fun rt => rt.token == tok) = none := by
          rw [find?_mark_first, hf]; rfl
        simp [verify_reset_token, mark_token_used, hm]
    | some rt =>
        have hm : (mark_first db.reset_tokens tok now).find?
            (fun rt => rt.token == tok) =
            some { rt with used := true, used_at := some now } := by
          rw [find?_mark_first, hf]; rfl
        simp [verify_reset_token, mark_token_used, hm, PasswordResetToken.is_valid]
  · intro rt hmem ht
    exact mark_first_all_used now huniq rt hmem ht

/-- Concrete witness data: one user owning one live token. -/
def uC1 : User :=
  { id := 1, name := "Ana", email := "ana@example.pt", role := "nadador", is_active := true }

/-- Concrete witness data: the live token. -/
def rtC1 : PasswordResetToken :=
  { user_id := 1, token := "tok-c1", expires_at := 10, used := false, used_at := none }

/-- Concrete witness database for C1. -/
def dbC1 : DB :=
  { users := [uC1], occurrences := [], notifications := [], activity_logs := [],
    reset_tokens := [rtC1] }

/-- C1 witness: on the concrete store the live token verifies to its owner, and
after redemption the same secret verifies to `None`. -/
theorem C1_reset_token_lifecycle_witness :
    verify_reset_token dbC1 5 "tok-c1" = some uC1 ∧
    verify_reset_token (mark_token_used dbC1 5 "tok-c1") 6 "tok-c1" = none := by
  have h := C1_reset_token_lifecycle dbC1 5 6 "tok-c1" (by decide)
  exact ⟨(h.1 uC1).mpr (by decide), h.2.1⟩

/-! ### C2 — concurrent redemption is not atomic -/

/-- Concrete data for the concurrency scenario: the owner of one live token. -/
def uC2 : User :=
  { id := 1, name := "Rui", email := "rui@example.pt", role := "nadador", is_active := true }

/-- Concrete data for the concurrency scenario: a live (unused, unexpired) token. -/
def rtC2 : PasswordResetToken :=
  { user_id := 1, token := "tok-c2", expires_at := 100, used := false, used_at := none }

/-- Concrete store for the concurrency scenario. -/
def dbC2 : DB :=
  { users := [uC2], occurrences := [], notifications := [], activity_logs := [],
    reset_tokens := [rtC2] }

/-- C2: the redemption flow runs `verify_reset_token` and `mark_token_used` as
separate read-then-write steps, and `mark_token_used` has no
update-where-unused condition or affected-row check; under the interleaving
verify₁, verify₂, mark₁, mark₂ of two concurrent redemptions of one valid
token, BOTH attempts succeed (2 successes), where the claim demands exactly
one success and one Invalid. -/
theorem C2_double_redemption :
    verify_reset_token dbC2 0 "tok-c2" = some uC2 ∧
    redeem_successes (run_schedule 0 "tok-c2"
      { db := dbC2, attempts := [RedeemPhase.start, RedeemPhase.start] }
      [0, 1, 0, 1]) = 2 := by
  decide

/-! ### C3 — audit failures are swallowed and never undo the primary commit -/

/-- C3: `log_activity` always returns normally (`Except.ok`), whatever its
arguments and whether or not its internal storage write fails, and it never
touches the committed occurrences; consequently the occurrence committed by
`nova_ocorrencia` before the audit call is still present afterwards even when
the audit write fails. -/
theorem C3_audit_isolation :
    (∀ (db : DB) (uid : Int) (action desc : String) (details : Option Details)
        (notify fails : Bool),
      ∃ db2, log_activity db uid action desc details notify fails = Except.ok db2 ∧
        db2.occurrences = db.occurrences) ∧
    (∀ (db : DB) (cu : User) (d : Int) (z t ds : String) (fails : Bool),
      nova_ocorrencia_occ db cu d z t ds ∈
        (nova_ocorrencia_commit db cu d z t ds fails).occurrences) := by
  constructor
  · intro db uid action desc details notify fails
    cases fails
    · exact ⟨_, rfl, rfl⟩
    · exact ⟨_, rfl, rfl⟩
  · intro db cu d z t ds fails
    cases fails
    · simp [nova_ocorrencia_commit, nova_ocorrencia_occ, log_activity,
        log_activity_body, except_db]
    · simp [nova_ocorrencia_commit, nova_ocorrencia_occ, log_activity, except_db]

/-! ### C4 — visibility of the hidden user to a President -/

/-- Concrete data: a President who is not the hidden user. -/
def presC4 : User :=
  { id := 1, name := "Paulo", email := "paulo@example.pt", role := "presidente",
    is_active := true }

/-- Concrete data: the hidden user (id 12). -/
def hiddenC4 : User :=
  { id := 12, name := "Oculto", email := "oculto@example.pt", role := "nadador",
    is_active := true }

/-- Concrete data: an occurrence owned by the hidden user. -/
def occC4 : Occurrence :=
  { id := 1, date := 0, zone := "Reconquinho", type := "resgate", description := "",
    user_id := 12 }

/-- Concrete store for C4. -/
def dbC4 : DB :=
  { users := [presC4, hiddenC4], occurrences := [occC4], notifications := [],
    activity_logs := [], reset_tokens := [] }

/-- C4 counterexample: the hidden user owns a record and a President lists
occurrences (no explicit target); the result contains that record, so
HiddenActor's records are NOT excluded from every listing query of records. -/
theorem C4_counterexample :
    ocorrencias_route dbC4 presC4 none = OcorrenciasResult.ok [occC4] (some []) ∧
    occC4.user_id = HIDDEN_USER_ID := by
  decide

/-- C4 (amended): for a President, only the actor-listing (`all_users`) excludes
the hidden user's profile when the acting actor is not the hidden user; the
record query itself applies no hidden-user filter — with no explicit target it
returns all occurrences, including the hidden user's — and when the acting
actor is the hidden user itself every other user appears in its actor-listing
(self-view is never suppressed). -/
theorem C4_hidden_user_visibility (db : DB) (cu : User) (uid : Option Int)
    (hp : cu.role = ROLE_PRESIDENTE) :
    (∃ occs aus, ocorrencias_route db cu uid = OcorrenciasResult.ok occs (some aus) ∧
      (uid = none → occs = db.occurrences) ∧
      (cu.id ≠ HIDDEN_USER_ID → ∀ u ∈ aus, u.id ≠ HIDDEN_USER_ID) ∧
      (cu.id = HIDDEN_USER_ID → ∀ u ∈ db.users, u.id ≠ cu.id → u ∈ aus)) ∧
    export_csv_query db cu none = some db.occurrences := by
  have hn : (cu.role == ROLE_NADADOR) = false := by rw [hp]; decide
  have hs : (cu.role == ROLE_SUPERVISOR) = false := by rw [hp]; decide
  constructor
  · cases hc : (cu.id == HIDDEN_USER_ID)
    · cases htr : truthy_int uid
      · refine ⟨db.occurrences,
          db.users.filter (fun u => u.id != cu.id && u.id != HIDDEN_USER_ID),
          ?_, ?_, ?_, ?_⟩
        · simp [ocorrencias_route, hn, hs, hc, htr]
        · intro _
          rfl
        · intro _ u hu
          have hm := (List.mem_filter.mp hu).2
          simp only [Bool.and_eq_true, bne_iff_ne, ne_eq] at hm
          exact hm.2
        · intro hch
          rw [hch] at hc
          simp at hc
      · refine ⟨db.occurrences.filter (fun o => o.user_id == uid.getD 0),
          db.users.filter (fun u => u.id != cu.id && u.id != HIDDEN_USER_ID),
          ?_, ?_, ?_, ?_⟩
        · simp [ocorrencias_route, hn, hs, hc, htr]
        · intro hnone
          rw [hnone] at htr
          simp [truthy_int] at htr
        · intro _ u hu
          have hm := (List.mem_filter.mp hu).2
          simp only [Bool.and_eq_true, bne_iff_ne, ne_eq] at hm
          exact hm.2
        · intro hch
          rw [hch] at hc
          simp at hc
    · have hceq : cu.id = HIDDEN_USER_ID := by simpa using hc
      cases htr : truthy_int uid
      · refine ⟨db.occurrences, db.users.filter (fun u => u.id != cu.id),
          ?_, ?_, ?_, ?_⟩
        · simp [ocorrencias_route, hn, hs, hc, htr]
        · intro _
          rfl
        · intro hne
          exact absurd hceq hne
        · intro _ u hu hne
          exact List.mem_filter.mpr ⟨hu, by simpa using hne⟩
      · refine ⟨db.occurrences.filter (fun o => o.user_id == uid.getD 0),
          db.users.filter (fun u => u.id != cu.id), ?_, ?_, ?_, ?_⟩
        · simp [ocorrencias_route, hn, hs, hc, htr]
        · intro hnone
          rw [hnone] at htr
          simp [truthy_int] at htr
        · intro hne
          exact absurd hceq hne
        · intro _ u hu hne
          exact List.mem_filter.mpr ⟨hu, by simpa using hne⟩
  · simp [export_csv_query, hn, hs, truthy_int]

/-- C4 witness: the amended statement applied to the concrete store `dbC4`. -/
theorem C4_hidden_user_visibility_witness :
    presC4.role = ROLE_PRESIDENTE ∧
    ((∃ occs aus, ocorrencias_route dbC4 presC4 none = OcorrenciasResult.ok occs (some aus) ∧
        ((none : Option Int) = none → occs = dbC4.occurrences) ∧
        (presC4.id ≠ HIDDEN_USER_ID → ∀ u ∈ aus, u.id ≠ HIDDEN_USER_ID) ∧
        (presC4.id = HIDDEN_USER_ID → ∀ u ∈ dbC4.users, u.id ≠ presC4.id → u ∈ aus)) ∧
      export_csv_query dbC4 presC4 none = some dbC4.occurrences) :=
  ⟨rfl, C4_hidden_user_visibility dbC4 presC4 none rfl⟩

/-! ### C5 — swimmer scope -/

/-- Concrete data: a swimmer. -/
def nadC5 : User :=
  { id := 1, name := "Nuno", email := "nuno@example.pt", role := "nadador",
    is_active := true }

/-- Concrete data: a second swimmer whose id is used as the explicit target. -/
def otherC5 : User :=
  { id := 2, name := "Olga", email := "olga@example.pt", role := "nadador",
    is_active := true }

/-- Concrete data: the first swimmer's own occurrence. -/
def occC5own : Occurrence :=
  { id := 1, date := 0, zone := "Vimieiro", type := "aviso", description := "",
    user_id := 1 }

/-- Concrete data: the second swimmer's occurrence. -/
def occC5other : Occurrence :=
  { id := 2, date := 0, zone := "Vimieiro", type := "aviso", description := "",
    user_id := 2 }

/-- Concrete store for C5. -/
def dbC5 : DB :=
  { users := [nadC5, otherC5], occurrences := [occC5own, occC5other],
    notifications := [], activity_logs := [], reset_tokens := [] }

/-- C5 counterexample: a swimmer supplying another user's id as the explicit
target is NOT rejected with AccessDenied — the listing succeeds, scoped to the
swimmer's own records. -/
theorem C5_counterexample :
    ocorrencias_route dbC5 nadC5 (some 2) = OcorrenciasResult.ok [occC5own] none ∧
    ocorrencias_route dbC5 nadC5 (some 2) ≠ OcorrenciasResult.denied := by
  decide

/-- C5 (amended): for every actor with role nadador the record scope of the
listing is exactly the actor's own records; an explicit target id — including
one different from the actor's — is ignored rather than rejected: for every
requested id the result is the same own-record listing. -/
theorem C5_swimmer_scope (db : DB) (cu : User) (uid : Option Int)
    (hn : cu.role = ROLE_NADADOR) :
    ocorrencias_route db cu uid =
      OcorrenciasResult.ok (db.occurrences.filter (fun o => o.user_id == cu.id)) none := by
  simp [ocorrencias_route, hn]

/-- C5 witness: the amended statement applied to the concrete store. -/
theorem C5_swimmer_scope_witness :
    nadC5.role = ROLE_NADADOR ∧
    ocorrencias_route dbC5 nadC5 (some 2) =
      OcorrenciasResult.ok (dbC5.occurrences.filter (fun o => o.user_id == nadC5.id))
        none :=
  ⟨rfl, C5_swimmer_scope dbC5 nadC5 (some 2) rfl⟩

/-! ### C6 — supervisor scope and the hidden user -/

/-- Concrete data: a supervisor. -/
def supC6 : User :=
  { id := 2, name := "Sofia", email := "sofia@example.pt", role := "supervisor",
    is_active := true }

/-- Concrete data: the hidden user, whose role is nadador. -/
def hidC6 : User :=
  { id := 12, name := "Oculto", email := "oculto6@example.pt", role := "nadador",
    is_active := true }

/-- Concrete data: a president used as a non-swimmer explicit target. -/
def presC6 : User :=
  { id := 4, name := "Pedro", email := "pedro@example.pt", role := "presidente",
    is_active := true }

/-- Concrete data: an occurrence owned by the hidden user. -/
def occC6 : Occurrence :=
  { id := 3, date := 0, zone := "Reconquinho", type := "resgate", description := "",
    user_id := 12 }

/-- Concrete store for C6. -/
def dbC6 : DB :=
  { users := [supC6, hidC6, presC6], occurrences := [occC6], notifications := [],
    activity_logs := [], reset_tokens := [] }

/-- C6 counterexample: when the hidden user's role is nadador and a supervisor
supplies the hidden user's id as the explicit target, the request is accepted
and the hidden user's record is in scope — contradicting "HiddenActor's id is
never present in the record scope, including when supplied as the explicit
target". -/
theorem C6_counterexample :
    ocorrencias_route dbC6 supC6 (some 12) = OcorrenciasResult.ok [occC6] (some []) ∧
    occC6.user_id = HIDDEN_USER_ID := by
  decide

/-- C6 (amended): for a supervisor, the hidden user is never in the DEFAULT
record scope nor in any actor-listing; an explicit target id that does not
resolve to a nadador is rejected with AccessDenied; but an explicit target id
resolving to a nadador — the hidden user included — is accepted and the scope
becomes exactly that user's records. -/
theorem C6_supervisor_scope (db : DB) (cu : User) (uid : Int)
    (hs : cu.role = ROLE_SUPERVISOR) (hch : cu.id ≠ HIDDEN_USER_ID) :
    (∀ occs aus, ocorrencias_route db cu none = OcorrenciasResult.ok occs aus →
      (∀ o ∈ occs, o.user_id ≠ HIDDEN_USER_ID) ∧
      (∀ l, aus = some l → ∀ u ∈ l, u.id ≠ HIDDEN_USER_ID)) ∧
    (∀ l, users_route db cu = UsersResult.ok l → ∀ u ∈ l, u.id ≠ HIDDEN_USER_ID) ∧
    (uid ≠ 0 → db.users.find? (fun u => u.id == uid) = none →
      ocorrencias_route db cu (some uid) = OcorrenciasResult.denied) ∧
    (∀ target, uid ≠ 0 → db.users.find? (fun u => u.id == uid) = some target →
      target.role ≠ ROLE_NADADOR →
      ocorrencias_route db cu (some uid) = OcorrenciasResult.denied) ∧
    (∀ target, uid ≠ 0 → db.users.find? (fun u => u.id == uid) = some target →
      target.role = ROLE_NADADOR →
      ocorrencias_route db cu (some uid) =
        OcorrenciasResult.ok (db.occurrences.filter (fun o => o.user_id == uid))
          (some (db.users.filter
            (fun u => u.role == ROLE_NADADOR && u.id != HIDDEN_USER_ID)))) := by
  have hn : (cu.role == ROLE_NADADOR) = false := by rw [hs]; decide
  have hsup : (cu.role == ROLE_SUPERVISOR) = true := by rw [hs]; decide
  refine ⟨?_, ?_, ?_, ?_, ?_⟩
  · intro occs aus heq
    have hval : ocorrencias_route db cu none =
        OcorrenciasResult.ok
          (db.occurrences.filter
            (fun o => (nadador_ids db ++ [cu.id]).contains o.user_id))
          (some (db.users.filter
            (fun u => u.role == ROLE_NADADOR && u.id != HIDDEN_USER_ID))) := by
      simp [ocorrencias_route, hn, hsup, truthy_int]
    have hinj := hval.symm.trans heq
    injection hinj with h1 h2
    subst h1
    subst h2
    constructor
    · intro o ho heq12
      have hcontains : o.user_id ∈ nadador_ids db ++ [cu.id] := by
        simpa using (List.mem_filter.mp ho).2
      rcases List.mem_append.mp hcontains with hin | hin
      · rcases List.mem_map.mp hin with ⟨v, hv, hvid⟩
        have hf := (List.mem_filter.mp hv).2
        simp only [Bool.and_eq_true, bne_iff_ne, ne_eq] at hf
        exact hf.2 (by rw [hvid, heq12])
      · have : o.user_id = cu.id := by simpa using hin
        exact hch (by rw [← this, heq12])
    · intro l hl u hu
      injection hl with hl'
      subst hl'
      have hf := (List.mem_filter.mp hu).2
      simp only [Bool.and_eq_true, bne_iff_ne, ne_eq] at hf
      exact hf.2
  · intro l hl u hu
    have hval : users_route db cu =
        UsersResult.ok (db.users.filter
          (fun u => u.role == ROLE_NADADOR && u.id != HIDDEN_USER_ID)) := by
      simp [users_route, hn, hsup]
    have hinj := hval.symm.trans hl
    injection hinj with h1
    subst h1
    have hf := (List.mem_filter.mp hu).2
    simp only [Bool.and_eq_true, bne_iff_ne, ne_eq] at hf
    exact hf.2
  · intro h0 hfind
    simp [ocorrencias_route, hn, hsup, truthy_int, h0, hfind]
  · intro target h0 hfind hrole
    have hb : (target.role != ROLE_NADADOR) = true := by simpa using hrole
    simp [ocorrencias_route, hn, hsup, truthy_int, h0, hfind, hb]
  · intro target h0 hfind hrole
    have hb : (target.role != ROLE_NADADOR) = false := by simp [hrole]
    simp [ocorrencias_route, hn, hsup, truthy_int, h0, hfind, hb]

/-- C6 witness: on the concrete store, a supervisor naming a president as the
explicit target is denied. -/
theorem C6_supervisor_scope_witness :
    supC6.role = ROLE_SUPERVISOR ∧ supC6.id ≠ HIDDEN_USER_ID ∧
    ocorrencias_route dbC6 supC6 (some 4) = OcorrenciasResult.denied :=
  ⟨rfl, by decide,
    (C6_supervisor_scope dbC6 supC6 4 rfl (by decide)).2.2.2.1 presC6
      (by decide) (by decide) (by decide)⟩

/-! ### C7 — notification fan-out for record creation -/

theorem filtered_map_user_count (l : List User) (p : User → Bool)
    (f : User → Notification) (hf : ∀ u, (f u).user_id = u.id)
    (hnd : (l.map User.id).Nodup) (v : User) (hv : v ∈ l) :
    (((l.filter p).map f).filter (fun nn => nn.user_id == v.id)).length =
      if p v then 1 else 0 := by
  induction l with
  | nil => cases hv
  | cons a rest ih =>
      have hpair := List.nodup_cons.mp (by simpa using hnd :
        (a.id :: rest.map User.id).Nodup)
      have hna : a.id ∉ rest.map User.id := hpair.1
      have hnd' : (rest.map User.id).Nodup := hpair.2
      rcases List.mem_cons.mp hv with heq | hv'
      · subst heq
        have hzero : (((rest.filter p).map f).filter
            (fun nn => nn.user_id == v.id)).length = 0 := by
          rw [List.length_eq_zero, List.filter_eq_nil_iff]
          intro nn hnn
          rcases List.mem_map.mp hnn with ⟨w, hw, hwnn⟩
          have hwmem := (List.mem_filter.mp hw).1
          have hwid : w.id ∈ rest.map User.id := List.mem_map_of_mem User.id hwmem
          simp only [← hwnn, hf w, beq_iff_eq]
          intro he
          exact hna (he ▸ hwid)
        cases hpa : p v
        · simp [List.filter_cons, hpa, hzero]
        · simp [List.filter_cons, hpa, hf, hzero]
      · have hva : v.id ≠ a.id := by
          intro he
          exact hna (he ▸ List.mem_map_of_mem User.id hv')
        have hba : (a.id == v.id) = false := by
          simp only [beq_eq_false_iff_ne, ne_eq]
          exact Ne.symm hva
        cases hpa : p a
        · simp [List.filter_cons, hpa, ih hnd' hv']
        · simp [List.filter_cons, hpa, hf, hba, ih hnd' hv']

/-- C7: an audited record-creation (`create_occurrence`) with
`notify_supervisors=true` by an existing actor creates exactly one notification
per actor whose role is supervisor or presidente, excluding the hidden user —
and no notification for anyone else — each carrying the computed link to the
occurrence's detail view.  (The self-action exemption of spec §4.4 concerns
self-referential read-notification actions, which never fan out here, so no
acting-actor exclusion applies to record creation.) -/
theorem C7_creation_fanout (db : DB) (u : User) (desc : String) (oid : Int)
    (hu : db.users.find? (fun v => v.id == u.id) = some u)
    (hnd : (db.users.map User.id).Nodup)
    (hoid : oid ≠ 0) :
    ∃ posted,
      log_activity db u.id "create_occurrence" desc
          (some { occurrence_id := some oid }) true false =
        Except.ok { db with
          activity_logs := db.activity_logs ++
            [{ user_id := u.id, action := "create_occurrence", description := desc,
               details := some { occurrence_id := some oid } }],
          notifications := db.notifications ++ posted } ∧
      (∀ nn ∈ posted, nn.link = Link.view_occurrence oid ∧
        nn.user_id ≠ HIDDEN_USER_ID ∧
        ∃ v ∈ db.users, nn.user_id = v.id ∧
          (v.role = ROLE_SUPERVISOR ∨ v.role = ROLE_PRESIDENTE)) ∧
      (∀ v ∈ db.users, (v.role = ROLE_SUPERVISOR ∨ v.role = ROLE_PRESIDENTE) →
        v.id ≠ HIDDEN_USER_ID →
        (posted.filter (fun nn => nn.user_id == v.id)).length = 1) ∧
      (∀ v ∈ db.users, v.role ≠ ROLE_SUPERVISOR → v.role ≠ ROLE_PRESIDENTE →
        (posted.filter (fun nn => nn.user_id == v.id)).length = 0) := by
  have hb : (oid != 0) = true := by simpa using hoid
  have hact : audit_actions.contains "create_occurrence" = true := by decide
  have hactmem : "create_occurrence" ∈ audit_actions := by decide
  have htm : notification_title_message "create_occurrence" u
      (some { occurrence_id := some oid }) =
      ("Nova Ocorrência Registada", u.name ++ " registou uma nova ocorrência.") := by
    rfl
  have hlink : notification_link "create_occurrence"
      (some { occurrence_id := some oid }) = Link.view_occurrence oid := by
    simp [notification_link, truthy_int, hb]
  refine ⟨fan_out_notifications db "Nova Ocorrência Registada"
    (u.name ++ " registou uma nova ocorrência.") (Link.view_occurrence oid),
    ?_, ?_, ?_, ?_⟩
  · simp [log_activity, log_activity_body, hact, hactmem, hu, htm, hlink]
  · intro nn hnn
    rcases List.mem_map.mp hnn with ⟨s, hs, rfl⟩
    have hsp := (List.mem_filter.mp hs).2
    simp only [Bool.and_eq_true, Bool.or_eq_true, beq_iff_eq, bne_iff_ne, ne_eq] at hsp
    exact ⟨rfl, hsp.2, s, (List.mem_filter.mp hs).1, rfl, hsp.1⟩
  · intro v hv hrole hv12
    have hp : (fun w => (w.role == "supervisor" || w.role == "presidente")
        && w.id != HIDDEN_USER_ID) v = true := by
      simp only [Bool.and_eq_true, Bool.or_eq_true, beq_iff_eq, bne_iff_ne, ne_eq]
      exact ⟨by simpa [ROLE_SUPERVISOR, ROLE_PRESIDENTE] using hrole, hv12⟩
    have hcount := filtered_map_user_count db.users
      (fun w => (w.role == "supervisor" || w.role == "presidente")
        && w.id != HIDDEN_USER_ID)
      (fun s => { id := 0, user_id := s.id, title := "Nova Ocorrência Registada",
                  message := u.name ++ " registou uma nova ocorrência.",
                  type := "info", read := false, link := Link.view_occurrence oid })
      (fun _ => rfl) hnd v hv
    rw [hp] at hcount
    simpa [fan_out_notifications] using hcount
  · intro v hv hr1 hr2
    have hp : (fun w => (w.role == "supervisor" || w.role == "presidente")
        && w.id != HIDDEN_USER_ID) v = false := by
      simp only [Bool.and_eq_true, Bool.or_eq_true, beq_iff_eq, bne_iff_ne, ne_eq,
        Bool.and_eq_false_iff, Bool.or_eq_false_iff]
      left
      constructor
      · simpa [ROLE_SUPERVISOR] using hr1
      · simpa [ROLE_PRESIDENTE] using hr2
    have hcount := filtered_map_user_count db.users
      (fun w => (w.role == "supervisor" || w.role == "presidente")
        && w.id != HIDDEN_USER_ID)
      (fun s => { id := 0, user_id := s.id, title := "Nova Ocorrência Registada",
                  message := u.name ++ " registou uma nova ocorrência.",
                  type := "info", read := false, link := Link.view_occurrence oid })
      (fun _ => rfl) hnd v hv
    rw [hp] at hcount
    simpa [fan_out_notifications] using hcount

/-- Concrete data: the acting swimmer for the fan-out witness. -/
def actC7 : User :=
  { id := 1, name := "Nadia", email := "nadia@example.pt", role := "nadador",
    is_active := true }

/-- Concrete data: a supervisor recipient. -/
def supC7 : User :=
  { id := 2, name := "Simao", email := "simao@example.pt", role := "supervisor",
    is_active := true }

/-- Concrete data: a president recipient. -/
def presC7 : User :=
  { id := 3, name := "Paula", email := "paula@example.pt", role := "presidente",
    is_active := true }

/-- Concrete data: the hidden user, here with role presidente. -/
def hidC7 : User :=
  { id := 12, name := "Oculto", email := "oculto7@example.pt", role := "presidente",
    is_active := true }

/-- Concrete store for the fan-out witness. -/
def dbC7 : DB :=
  { users := [actC7, supC7, presC7, hidC7], occurrences := [], notifications := [],
    activity_logs := [], reset_tokens := [] }

/-- C7 witness: the fan-out statement applied to a concrete store holding one
swimmer, one supervisor, one president and the hidden president. -/
theorem C7_creation_fanout_witness :
    dbC7.users.find? (fun v => v.id == actC7.id) = some actC7 ∧
    (dbC7.users.map User.id).Nodup ∧
    (∃ posted,
      log_activity dbC7 actC7.id "create_occurrence" "Criou ocorrência #5"
          (some { occurrence_id := some 5 }) true false =
        Except.ok { dbC7 with
          activity_logs := dbC7.activity_logs ++
            [{ user_id := actC7.id, action := "create_occurrence",
               description := "Criou ocorrência #5",
               details := some { occurrence_id := some 5 } }],
          notifications := dbC7.notifications ++ posted } ∧
      (∀ nn ∈ posted, nn.link = Link.view_occurrence 5 ∧
        nn.user_id ≠ HIDDEN_USER_ID ∧
        ∃ v ∈ dbC7.users, nn.user_id = v.id ∧
          (v.role = ROLE_SUPERVISOR ∨ v.role = ROLE_PRESIDENTE)) ∧
      (∀ v ∈ dbC7.users, (v.role = ROLE_SUPERVISOR ∨ v.role = ROLE_PRESIDENTE) →
        v.id ≠ HIDDEN_USER_ID →
        (posted.filter (fun nn => nn.user_id == v.id)).length = 1) ∧
      (∀ v ∈ dbC7.users, v.role ≠ ROLE_SUPERVISOR → v.role ≠ ROLE_PRESIDENTE →
        (posted.filter (fun nn => nn.user_id == v.id)).length = 0)) :=
  ⟨by decide, by decide,
    C7_creation_fanout dbC7 actC7 "Criou ocorrência #5" 5 (by decide) (by decide)
      (by decide)⟩

/-! ### C8 — login actions do not notify -/

/-- Concrete data: the user logging in. -/
def uC8 : User :=
  { id := 1, name := "Luis", email := "luis@example.pt", role := "nadador",
    is_active := true }

/-- Concrete data: a supervisor who, per the claim, should be notified on login. -/
def supC8 : User :=
  { id := 3, name := "Sara", email := "sara@example.pt", role := "supervisor",
    is_active := true }

/-- Concrete store for C8. -/
def dbC8 : DB :=
  { users := [uC8, supC8], occurrences := [], notifications := [],
    activity_logs := [], reset_tokens := [] }

/-- C8 counterexample: a supervisor exists, a login is recorded through the
login route's `log_activity` call (which leaves `notify_supervisors` at its
`False` default), and NO notification is created — contradicting "a
notification to the supervisory chain is always created regardless of the
flag". -/
theorem C8_counterexample :
    supC8 ∈ dbC8.users ∧ supC8.role = ROLE_SUPERVISOR ∧
    (except_db (login_log_activity dbC8 uC8 "Mozilla") dbC8).notifications = [] := by
  decide

/-- Notification creation inside `log_activity` is guarded by
`notify_supervisors`; with the flag off the notifications table is untouched. -/
theorem log_activity_no_notify_notifications (db : DB) (uid : Int)
    (action desc : String) (details : Option Details) :
    (log_activity_body db uid action desc details false).notifications =
      db.notifications := by
  cases hc : audit_actions.contains action <;>
    cases hf : db.users.find? (fun u => u.id == uid) <;>
      simp [log_activity_body, hc, hf]

/-- C8 (amended): `log_activity` creates notifications only when its
`notify_supervisors` flag is true; the login route records the login without
setting the flag, so recording an action of kind login leaves the
notifications table unchanged — no supervisory-chain notification is
synthesized. -/
theorem C8_login_no_fanout :
    (∀ (db : DB) (uid : Int) (desc : String) (details : Option Details)
        (fails : Bool),
      ∃ db2, log_activity db uid "login" desc details false fails = Except.ok db2 ∧
        db2.notifications = db.notifications) ∧
    (∀ (db : DB) (user : User) (ua : String),
      ∃ db2, login_log_activity db user ua = Except.ok db2 ∧
        db2.notifications = db.notifications) := by
  constructor
  · intro db uid desc details fails
    cases fails
    · exact ⟨_, rfl, log_activity_no_notify_notifications db uid "login" desc details⟩
    · exact ⟨_, rfl, rfl⟩
  · intro db user ua
    exact ⟨_, rfl, log_activity_no_notify_notifications db user.id "login"
      "Iniciou sessão" (some { user_agent := ua })⟩

/-! ### C9 — marking a notification as read -/

theorem find?_set_notification_read (l : List Notification) (nid : Int) :
    (set_notification_read l nid).find? (fun m => m.id == nid) =
      (l.find? (fun m => m.id == nid)).map (fun m => { m with read := true }) := by
  induction l with
  | nil => rfl
  | cons a rest ih =>
      cases h : (a.id == nid)
      · simp [set_notification_read, h, List.find?_cons, ih]
      · simp [set_notification_read, h, List.find?_cons]

theorem set_notification_read_of_read {l : List Notification} {nid : Int}
    {m : Notification} (hfind : l.find? (fun x => x.id == nid) = some m)
    (hr : m.read = true) : set_notification_read l nid = l := by
  induction l with
  | nil => rfl
  | cons a rest ih =>
      cases h : (a.id == nid)
      · simp only [List.find?_cons, h] at hfind
        simp [set_notification_read, h, ih hfind]
      · simp only [List.find?_cons, h, Option.some.injEq] at hfind
        subst hfind
        have hm : ({ a with read := true } : Notification) = a := by
          cases a
          simp_all
        simp [set_notification_read, h, hm]

theorem mark_read_after (db : DB) (cu : User) (nid : Int) (n : Notification)
    (db1 : DB)
    (h1 : db1.notifications = set_notification_read db.notifications nid)
    (hn : db.notifications.find? (fun m => m.id == nid) = some n)
    (hrec : n.user_id = cu.id) :
    db1.notifications.find? (fun m => m.id == nid) = some { n with read := true } ∧
    (mark_notification_read db1 cu nid).1 = MarkReadResult.success ∧
    (mark_notification_read db1 cu nid).2.notifications = db1.notifications := by
  have hfind2 : db1.notifications.find? (fun m => m.id == nid) =
      some { n with read := true } := by
    rw [h1, find?_set_notification_read, hn]
    rfl
  have hne2 : (({ n with read := true } : Notification).user_id != cu.id) = false := by
    simp [hrec]
  have hset : set_notification_read db1.notifications nid = db1.notifications :=
    set_notification_read_of_read hfind2 rfl
  refine ⟨hfind2, ?_, ?_⟩
  · simp [mark_notification_read, hfind2, hne2]
  · simp [mark_notification_read, hfind2, hne2, log_activity, except_db, hset,
      log_activity_no_notify_notifications]

/-- C9: for a notification that exists, `mark_notification_read` succeeds for
the recipient and sets `read`; a second call by the recipient succeeds again
and leaves the notifications table exactly as it was (idempotence); a call by a
non-recipient returns 403 and leaves the whole store unchanged. -/
theorem C9_mark_read (db : DB) (cu cu2 : User) (nid : Int) (n : Notification)
    (hn : db.notifications.find? (fun m => m.id == nid) = some n)
    (hrec : n.user_id = cu.id) (hnon : cu2.id ≠ n.user_id) :
    ∃ db1, mark_notification_read db cu nid = (MarkReadResult.success, db1) ∧
      db1.notifications.find? (fun m => m.id == nid) = some { n with read := true } ∧
      (mark_notification_read db1 cu nid).1 = MarkReadResult.success ∧
      (mark_notification_read db1 cu nid).2.notifications = db1.notifications ∧
      mark_notification_read db cu2 nid = (MarkReadResult.denied, db) := by
  have hne : (n.user_id != cu.id) = false := by simp [hrec]
  have hcall1 : mark_notification_read db cu nid =
      (MarkReadResult.success,
        log_activity_body
          { db with notifications := set_notification_read db.notifications nid }
          cu.id "mark_notification_read"
          ("Marcou notificação #" ++ toString nid ++ " como lida")
          (some { notification_id := some nid }) false) := by
    simp [mark_notification_read, hn, hne, log_activity, except_db]
  have hafter := mark_read_after db cu nid n
    (log_activity_body
      { db with notifications := set_notification_read db.notifications nid }
      cu.id "mark_notification_read"
      ("Marcou notificação #" ++ toString nid ++ " como lida")
      (some { notification_id := some nid }) false)
    (log_activity_no_notify_notifications _ _ _ _ _) hn hrec
  have hne3 : (n.user_id != cu2.id) = true := by
    simp only [bne_iff_ne, ne_eq]
    exact Ne.symm hnon
  refine ⟨_, hcall1, hafter.1, hafter.2.1, hafter.2.2, ?_⟩
  simp [mark_notification_read, hn, hne3]

/-- Concrete data: the unread notification. -/
def nC9 : Notification :=
  { id := 1, user_id := 1, title := "Aviso", message := "Mensagem", type := "info",
    read := false, link := Link.activities }

/-- Concrete data: the recipient. -/
def cuC9 : User :=
  { id := 1, name := "Rita", email := "rita@example.pt", role := "nadador",
    is_active := true }

/-- Concrete data: a non-recipient. -/
def cu2C9 : User :=
  { id := 2, name := "Tiago", email := "tiago@example.pt", role := "nadador",
    is_active := true }

/-- Concrete store for C9. -/
def dbC9 : DB :=
  { users := [cuC9, cu2C9], occurrences := [], notifications := [nC9],
    activity_logs := [], reset_tokens := [] }

/-- C9 witness: the statement applied to the concrete store. -/
theorem C9_mark_read_witness :
    dbC9.notifications.find? (fun m => m.id == 1) = some nC9 ∧
    nC9.user_id = cuC9.id ∧ cu2C9.id ≠ nC9.user_id ∧
    (∃ db1, mark_notification_read dbC9 cuC9 1 = (MarkReadResult.success, db1) ∧
      db1.notifications.find? (fun m => m.id == 1) = some { nC9 with read := true } ∧
      (mark_notification_read db1 cuC9 1).1 = MarkReadResult.success ∧
      (mark_notification_read db1 cuC9 1).2.notifications = db1.notifications ∧
      mark_notification_read dbC9 cu2C9 1 = (MarkReadResult.denied, dbC9)) :=
  ⟨by decide, rfl, by decide,
    C9_mark_read dbC9 cuC9 cu2C9 1 nC9 (by decide) rfl (by decide)⟩

/-! ### C10 — session loading of suspended users -/

/-- C10: `load_user` returns `None` whenever the session id does not parse as an
integer, no user with that id exists, or the stored user's `is_active` flag is
false; conversely a returned user is always active and found by parsed id — so
a suspended user cannot hold an authenticated session. -/
theorem C10_load_user (db : DB) (s : String) :
    (parse_int s = none → load_user db s = none) ∧
    (∀ uid, parse_int s = some uid →
      db.users.find? (fun u => u.id == uid) = none → load_user db s = none) ∧
    (∀ uid u, parse_int s = some uid →
      db.users.find? (fun u => u.id == uid) = some u →
      u.is_active = false → load_user db s = none) ∧
    (∀ u, load_user db s = some u → u.is_active = true ∧
      ∃ uid, parse_int s = some uid ∧
        db.users.find? (fun v => v.id == uid) = some u) := by
  refine ⟨?_, ?_, ?_, ?_⟩
  · intro h
    simp [load_user, h]
  · intro uid h hf
    simp [load_user, h, hf]
  · intro uid u h hf hin
    simp [load_user, h, hf, hin]
  · intro u h
    cases hp : parse_int s with
    | none => simp [load_user, hp] at h
    | some uid =>
        cases hf : db.users.find? (fun v => v.id == uid) with
        | none => simp [load_user, hp, hf] at h
        | some w =>
            by_cases hw : w.is_active
            · have hload : load_user db s = some w := by
                simp [load_user, hp, hf, hw]
              rw [hload] at h
              injection h with h'
              subst h'
              exact ⟨hw, uid, rfl, hf⟩
            · simp [load_user, hp, hf, hw] at h

/-- Concrete data: an active user with id 7. -/
def actC10 : User :=
  { id := 7, name := "Vera", email := "vera@example.pt", role := "nadador",
    is_active := true }

/-- Concrete data: a suspended user with id 9. -/
def susC10 : User :=
  { id := 9, name := "Beto", email := "beto@example.pt", role := "nadador",
    is_active := false }

/-- Concrete store for C10. -/
def dbC10 : DB :=
  { users := [actC10, susC10], occurrences := [], notifications := [],
    activity_logs := [], reset_tokens := [] }

/-- C10 witness: an unparsable id, a missing id and a suspended user's id all
load to `None` on the concrete store. -/
theorem C10_load_user_witness :
    load_user dbC10 "abc" = none ∧ load_user dbC10 "8" = none ∧
    load_user dbC10 "9" = none :=
  ⟨(C10_load_user dbC10 "abc").1 (by decide),
   (C10_load_user dbC10 "8").2.1 8 (by decide) (by decide),
   (C10_load_user dbC10 "9").2.2.1 9 susC10 (by decide) (by decide) rfl⟩

end Praias
